import Mathlib

/-!
Verification development for the telegram-automation repository.

The definitions below are a shallow embedding of the repository's
message-to-track metadata extraction and organization pipeline:

* `telegram_history_scraper.py` — `TelegramHistoryScraper`
  (`_parse_album_info_advanced`, `scrape_channel_history` loop,
  `load_checkpoint` / `save_checkpoint`, iterator-parameter construction);
* `complete_automation_system.py` — `TelegramMusicArchiver`
  (`extract_track_info` metadata merge, `determine_side`,
  `organize_file_path` with its nested `sanitize_name`, `organize_track`
  tag merge, `save_track_to_db`, `sync_to_airtable`,
  `process_channel_history` FloodWait handling).

Python strings are modelled as Lean `String` / `List Char`; Python string
helpers (`split`, `strip`, `startswith`, regex fragments) are implemented
as structural recursions on `List Char` mirroring CPython semantics on the
ASCII inputs the pipeline manipulates.  Fallible external collaborators
(Telegram iterator, mutagen tags, Airtable) appear as explicit inputs.
-/

/-! ## Python string primitives -/

/-- Model of Python `text.split(sep)` for a single-character separator
(used by the parser as `text.split('\n')`). -/
def split_char (sep : Char) : List Char → List (List Char)
  | [] => [[]]
  | c :: cs =>
    match split_char sep cs with
    | [] => [[]]
    | h :: t => if c = sep then [] :: h :: t else (c :: h) :: t

/-- Model of Python `str.strip()` on a character list: drop whitespace from
both ends. -/
def strip_chars (cs : List Char) : List Char :=
  ((cs.dropWhile Char.isWhitespace).reverse.dropWhile Char.isWhitespace).reverse

/-- Model of Python `str.strip()` on a `String`. -/
def py_strip (s : String) : String := String.mk (strip_chars s.data)

/-- Leftmost occurrence split: model of Python `line.split(sep, 1)`.
Returns `none` when `sep` does not occur (Python would return the whole
string as a single part), and `some (before, after)` when it does. -/
def break_on_first (sep : List Char) : List Char → Option (List Char × List Char)
  | [] => none
  | c :: cs =>
    if sep.isPrefixOf (c :: cs) then some ([], (c :: cs).drop sep.length)
    else
      match break_on_first sep cs with
      | some (a, b) => some (c :: a, b)
      | none => none

/-- Substring test: model of Python `sub in s`. -/
def contains_sub (pat : List Char) : List Char → Bool
  | [] => pat.isEmpty
  | c :: cs => pat.isPrefixOf (c :: cs) || contains_sub pat cs

/-- Model of Python `str.lower()` (ASCII case folding, which is all the
keyword tables use). -/
def lower_str (s : String) : String := String.mk (s.data.map Char.toLower)

/-! ## Text Metadata Parser — `TelegramHistoryScraper._parse_album_info_advanced` -/

/-- The line preprocessing of `_parse_album_info_advanced`:
`[line.strip() for line in text.split('\n') if line.strip()]`. -/
def clean_lines (text : String) : List String :=
  (((split_char '\n' text.data).map strip_chars).filter (fun l => !l.isEmpty)).map String.mk

/-- The artist/album candidate test applied to one (already stripped) line:
the line must contain `" - "`, must not start with `"http"` or `"Track"`,
and after splitting on the first `" - "` both halves must be non-empty
once stripped.  Mirrors the loop body at
`telegram_history_scraper.py:400-412`. -/
def line_candidate (l : String) : Option (String × String) :=
  if ("http".data.isPrefixOf l.data) || ("Track".data.isPrefixOf l.data) then none
  else
    match break_on_first [' ', '-', ' '] l.data with
    | none => none
    | some (a, b) =>
      let pa := strip_chars a
      let pb := strip_chars b
      if !pa.isEmpty && !pb.isEmpty then some (String.mk pa, String.mk pb) else none

/-- First qualifying artist/album line of the message text (the `for line in
lines: ... break` scan of `_parse_album_info_advanced`). -/
def parse_artist_album (text : String) : Option (String × String) :=
  (clean_lines text).findSome? line_candidate

/-- Model of the regex word class `\w` on the ASCII inputs in scope. -/
def is_word_char (c : Char) : Bool := c.isAlphanum || c == '_'

/-- One position of the scan for the year regex `\b(19|20)\d{2}\b`:
`prev` is the character just before the current position (for the left
word boundary). -/
def year_head (prev : Option Char) (cs : List Char) : Option (List Char) :=
  match cs with
  | c1 :: c2 :: c3 :: c4 :: rest =>
    let bound_ok : Bool := match prev with | none => true | some p => !(is_word_char p)
    let tail_ok : Bool := match rest with | [] => true | r :: _ => !(is_word_char r)
    if bound_ok && ((c1 == '1' && c2 == '9') || (c1 == '2' && c2 == '0'))
        && c3.isDigit && c4.isDigit && tail_ok
    then some [c1, c2, c3, c4] else none
  | _ => none

/-- Leftmost match of the year regex, scanning position by position. -/
def year_scan : Option Char → List Char → Option (List Char)
  | _, [] => none
  | prev, c :: cs =>
    match year_head prev (c :: cs) with
    | some y => some y
    | none => year_scan (some c) cs

/-- Model of `re.search(r'\b(19|20)\d{2}\b', text)` returning the matched
text, or `""` when there is no match (the parser leaves `year` empty). -/
def extract_year (text : String) : String :=
  match year_scan none text.data with
  | some y => String.mk y
  | none => ""

/-- Character class `[\.\-\s]` of the track-list regexes. -/
def is_sep_class (c : Char) : Bool := c == '.' || c == '-' || c.isWhitespace

/-- Track pattern 1, `^(\d+[\.\-\s]+.+)$`: one or more digits, then a
separator-class character, then at least one further character. -/
def track_p1 (cs : List Char) : Bool :=
  let ds := cs.takeWhile Char.isDigit
  let r := cs.drop ds.length
  !ds.isEmpty && (match r with | a :: _ :: _ => is_sep_class a | _ => false)

/-- Track pattern 2, `^([A-Z]\d+[\.\-\s]+.+)$` (vinyl side notation). -/
def track_p2 (cs : List Char) : Bool :=
  match cs with
  | c :: rest =>
    c.isUpper &&
      (let ds := rest.takeWhile Char.isDigit
       let r := rest.drop ds.length
       !ds.isEmpty && (match r with | a :: _ :: _ => is_sep_class a | _ => false))
  | [] => false

/-- Track pattern 3, `^(Side [AB][\s\:].+)$`. -/
def track_p3 (cs : List Char) : Bool :=
  match cs with
  | 'S' :: 'i' :: 'd' :: 'e' :: ' ' :: ab :: sep :: _ :: _ =>
    (ab == 'A' || ab == 'B') && (sep.isWhitespace || sep == ':')
  | _ => false

/-- A line is collected into `track_list` when any of the three track
patterns matches (the inner `for pattern in track_patterns: ... break`). -/
def is_track_line (l : String) : Bool := track_p1 l.data || track_p2 l.data || track_p3 l.data

/-- The fields of `_parse_album_info_advanced`'s result dictionary that the
pipeline's claims are about (`genre`/`label`/`format`/`country`,
`description` and `urls` are independent extractions of the same function,
not referenced by any claim). -/
structure AlbumInfo where
  artist : String
  album_name : String
  year : String
  track_list : List String
deriving DecidableEq, Repr

/-- Model of `TelegramHistoryScraper._parse_album_info_advanced`. -/
def parse_album_info_advanced (text : String) : AlbumInfo :=
  let lines := clean_lines text
  let aa := parse_artist_album text
  { artist := (aa.map (fun p => p.1)).getD ""
    album_name := (aa.map (fun p => p.2)).getD ""
    year := extract_year text
    track_list := lines.filter is_track_line }

/-! ## Data model — `MusicTrack` (complete_automation_system.py) -/

/-- Model of the `MusicTrack` dataclass.  `datetime` fields are carried as
their ISO strings (the system only ever stores `isoformat()` of them). -/
structure MusicTrack where
  file_id : String
  title : String
  artist : String
  album : String
  year : String
  side : String
  duration : Nat
  file_size : Nat
  file_path : String
  download_url : String
  message_id : Nat
  channel_id : String
  upload_date : String
  forwarded_date : Option String
  gdrive_url : Option String
  onedrive_url : Option String
  airtable_id : Option String
  sheets_row : Option Nat
  processing_status : String
deriving DecidableEq, Repr

/-! ## Track Classifier — `TelegramMusicArchiver.determine_side` -/

/-- The fixed Side-B keyword table of `determine_side`. -/
def side_b_keywords : List String :=
  ["side b", "b-side", "bside", "flip", "instrumental",
   "remix", "version", "alternate", "demo", "unreleased"]

/-- Model of `TelegramMusicArchiver.determine_side`: any keyword occurring
in the lowercased title or album yields "Side B", otherwise "Side A". -/
def determine_side (title album : String) : String :=
  if side_b_keywords.any (fun k =>
      contains_sub k.data (lower_str title).data || contains_sub k.data (lower_str album).data)
  then "Side B" else "Side A"

/-! ## Path Organizer — `TelegramMusicArchiver.organize_file_path` -/

/-- The reserved filesystem characters removed by `sanitize_name`
(regex `[<>:"/\\|?*]`). -/
def reserved_fs_chars : List Char := ['<', '>', ':', '"', '/', '\\', '|', '?', '*']

/-- A character removed by `sanitize_name`: reserved, or an ASCII control
character (regex `[\x00-\x1f]`). -/
def is_invalid_fs_char (c : Char) : Bool := reserved_fs_chars.contains c || c.toNat ≤ 31

/-- Model of the nested `sanitize_name` of `organize_file_path`: strip the
invalid characters, then trim whitespace. -/
def sanitize_name (s : String) : String :=
  String.mk (strip_chars (s.data.filter (fun c => !(is_invalid_fs_char c))))

/-- Model of `pathlib.Path(p).suffix`: the final `"."`-suffix of the last
path component, when the right-most dot is neither the first nor the last
character of that component. -/
def path_suffix (p : String) : String :=
  let name := (split_char '/' p.data).getLastD []
  let after := (name.reverse.takeWhile (fun c => !(c == '.'))).length
  if after < name.length ∧ 0 < name.length - after - 1 ∧ 0 < after then
    String.mk (name.drop (name.length - after - 1))
  else ""

/-- The `artist = sanitize_name(track.artist) or "Unknown Artist"` fallback. -/
def fallback_artist (s : String) : String :=
  if sanitize_name s = "" then "Unknown Artist" else sanitize_name s

/-- The `album = sanitize_name(track.album) or "Unknown Album"` fallback. -/
def fallback_album (s : String) : String :=
  if sanitize_name s = "" then "Unknown Album" else sanitize_name s

/-- The album folder name of `organize_file_path`: note that `track.year`
is interpolated without sanitization. -/
def album_folder_name (t : MusicTrack) : String :=
  if t.year = "" then fallback_artist t.artist ++ " - " ++ fallback_album t.album
  else fallback_artist t.artist ++ " - " ++ fallback_album t.album ++ " (" ++ t.year ++ ")"

/-- Model of `TelegramMusicArchiver.organize_file_path`, as the list of
path segments relative to the `downloads/organized` base directory (the
source prefixes the constant `self.config['download_path'] / 'organized'`).
The side segment (`track.side`) and the original file extension are
interpolated without sanitization. -/
def organize_file_path (create_side_folders : Bool) (t : MusicTrack) : List String :=
  if create_side_folders then
    [album_folder_name t, t.side, sanitize_name t.title ++ path_suffix t.file_path]
  else
    [album_folder_name t, sanitize_name t.title ++ path_suffix t.file_path]

/-- Modelled from the spec (section 4.3 Path Organizer): sanitize each of
artist/album/title independently with the Unknown-Artist/Unknown-Album
fallbacks, name the album folder `"{artist} - {album}"` or
`"{artist} - {album} ({year})"` when year is present, and append the side
segment only when side-folder organization is enabled, ending with
`"{title}{originalExtension}"`.  Used to compare the source's
`organize_file_path` against the spec's wording. -/
def organize_path_spec (sideFoldersEnabled : Bool) (m : MusicTrack) : List String :=
  let artist := if sanitize_name m.artist = "" then "Unknown Artist" else sanitize_name m.artist
  let album := if sanitize_name m.album = "" then "Unknown Album" else sanitize_name m.album
  let albumFolder :=
    if m.year = "" then artist ++ " - " ++ album
    else artist ++ " - " ++ album ++ " (" ++ m.year ++ ")"
  let fileName := sanitize_name m.title ++ path_suffix m.file_path
  albumFolder :: ((if sideFoldersEnabled then [m.side] else []) ++ [fileName])

/-! ## Metadata merge — `extract_track_info` and `organize_track` -/

/-- Python `a or b` on strings: `a` when non-empty, else `b`. -/
def py_or (a b : String) : String := if a = "" then b else a

/-- The four fields `parse_message_text` always returns (possibly empty). -/
structure ParsedMeta where
  title : String
  artist : String
  album : String
  year : String
deriving DecidableEq, Repr

/-- Model of the metadata-combination core of
`TelegramMusicArchiver.extract_track_info` (lines 506-561): given the
parsed message-text metadata, the `DocumentAttributeAudio` title/performer
and the document's file facts, build the `MusicTrack`.  The merge is
`parsed or attribute or fallback` for title/artist; album and year come
from the parsed text only. -/
def extract_track_info (parsed : ParsedMeta) (attr_title attr_performer : String)
    (duration file_size : Nat) (file_id : String) (message_id : Nat)
    (channel_id upload_date : String) : MusicTrack :=
  let final_title := py_or parsed.title (py_or attr_title ("Track_" ++ file_id))
  let final_artist := py_or parsed.artist (py_or attr_performer "Unknown Artist")
  let final_album := py_or parsed.album "Unknown Album"
  let final_year := py_or parsed.year ""
  { file_id := file_id
    title := final_title
    artist := final_artist
    album := final_album
    year := final_year
    side := determine_side final_title final_album
    duration := duration
    file_size := file_size
    file_path := ""
    download_url := ""
    message_id := message_id
    channel_id := channel_id
    upload_date := upload_date
    forwarded_date := none
    gdrive_url := none
    onedrive_url := none
    airtable_id := none
    sheets_row := none
    processing_status := "pending" }

/-- The embedded audio-tag metadata returned by `parse_audio_metadata`
when called from `organize_track` (no message text is passed there, so
the result is purely the file's ID3 tags: empty strings / 0 when a tag is
absent). -/
structure AudioMeta where
  title : String
  artist : String
  album : String
  year : String
  duration : Nat
deriving DecidableEq, Repr

/-- Model of the tag-merge step of `TelegramMusicArchiver.organize_track`
(lines 662-674): every non-empty (truthy) embedded tag value overwrites
the corresponding field of the track, including title and artist. -/
def organize_track_merge (t : MusicTrack) (m : AudioMeta) : MusicTrack :=
  { t with
    title := if m.title ≠ "" then m.title else t.title
    artist := if m.artist ≠ "" then m.artist else t.artist
    album := if m.album ≠ "" then m.album else t.album
    year := if m.year ≠ "" then m.year else t.year
    duration := if m.duration ≠ 0 then m.duration else t.duration }

/-! ## Item State Tracker — `save_track_to_db` (SQLite `INSERT OR REPLACE`) -/

/-- Model of the `music_tracks` SQLite table (`file_id TEXT PRIMARY KEY`)
together with `TelegramMusicArchiver.save_track_to_db`: `INSERT OR
REPLACE` deletes any existing row with the same primary key and inserts
the new row.  `update_track_in_db` is the same function in the source. -/
def save_track_to_db (db : List MusicTrack) (t : MusicTrack) : List MusicTrack :=
  t :: db.filter (fun r => r.file_id ≠ t.file_id)

/-! ## Sink Dispatcher — `sync_to_airtable` -/

/-- The record dictionary built by `sync_to_airtable` (its keys `'File
ID'`, `'Title'`, ... in source order). -/
structure AirtableFields where
  file_id : String
  title : String
  artist : String
  album : String
  year : String
  side : String
  duration : Nat
  file_size : Nat
  upload_date : String
  gdrive_url : String
  processing_status : String
deriving DecidableEq, Repr

/-- The `record_data` construction of `sync_to_airtable` (lines 826-838). -/
def airtable_record_data (t : MusicTrack) : AirtableFields :=
  { file_id := t.file_id
    title := t.title
    artist := t.artist
    album := t.album
    year := t.year
    side := t.side
    duration := t.duration
    file_size := t.file_size
    upload_date := t.upload_date
    gdrive_url := t.gdrive_url.getD ""
    processing_status := t.processing_status }

/-- Model of the Airtable collaborator's `create` call used by
`sync_to_airtable` (line 840): it appends a brand-new record to the table
and returns its fresh id — it is not an upsert. -/
def airtable_create (tbl : List AirtableFields) (r : AirtableFields) :
    List AirtableFields × Nat :=
  (tbl ++ [r], tbl.length)

/-- Model of `TelegramMusicArchiver.sync_to_airtable`: build the record
data and `create` it, returning the updated table. -/
def sync_to_airtable (tbl : List AirtableFields) (t : MusicTrack) : List AirtableFields :=
  (airtable_create tbl (airtable_record_data t)).1

/-! ## Scan Checkpoint — `load_checkpoint` / `save_checkpoint` -/

/-- The checkpoint dictionary written by
`TelegramHistoryScraper.save_checkpoint` (lines 110-116). -/
structure ScrapeCheckpoint where
  last_message_id : Nat
  processed_count : Nat
  channel_username : String
  timestamp : String
  config_hash : String
deriving DecidableEq, Repr

/-- Model of `TelegramHistoryScraper.save_checkpoint`: the record carries
the md5 fingerprint of the active configuration (`config_hash`, computed
externally by `hashlib.md5(str(self.config.__dict__))` and passed in
here) alongside position and count. -/
def save_checkpoint (last_message_id processed_count : Nat)
    (channel_username timestamp config_hash : String) : ScrapeCheckpoint :=
  { last_message_id := last_message_id
    processed_count := processed_count
    channel_username := channel_username
    timestamp := timestamp
    config_hash := config_hash }

/-- Model of `TelegramHistoryScraper.load_checkpoint` (lines 90-106):
`stored` is the parse result of the checkpoint file (`none` when the file
is missing or malformed — every exception is caught and `{}` returned).
When resumption is enabled the stored checkpoint is returned as-is: no
field of it, in particular not `config_hash`, is validated. -/
def load_checkpoint (resume_from_checkpoint : Bool)
    (stored : Option ScrapeCheckpoint) : Option ScrapeCheckpoint :=
  if resume_from_checkpoint then stored else none

/-- The resumption point computed by `scrape_channel_history` (line 188):
`checkpoint.get('last_message_id', 0) if checkpoint else 0`. -/
def checkpoint_start_id (cp : Option ScrapeCheckpoint) : Nat :=
  match cp with
  | some c => c.last_message_id
  | none => 0

/-! ## Iterator parameters — date filters (`scrape_channel_history` 214-226) -/

/-- The keyword arguments passed to the collaborator's message iterator.
Dates are carried as opaque strings. -/
structure IterParams where
  limit : Nat
  reverse : Bool
  min_id : Nat
  offset_date : Option String
deriving DecidableEq, Repr

/-- Model of the iterator-parameter construction of
`scrape_channel_history` (lines 214-226): the base dictionary, then
`iter_params['offset_date'] = START_DATE` when a start date is set, then
`iter_params['offset_date'] = END_DATE` when an end date is set — both
assignments target the same dictionary key. -/
def build_iter_params (max_messages start_from_id : Nat)
    (start_date end_date : Option String) : IterParams :=
  let p0 : IterParams :=
    { limit := max_messages, reverse := false, min_id := start_from_id, offset_date := none }
  let p1 := match start_date with
    | some d => { p0 with offset_date := some d }
    | none => p0
  match end_date with
  | some d => { p1 with offset_date := some d }
  | none => p1

/-! ## Scan Driver loops — rate-limit handling -/

/-- Outcome of handling one message inside the `async for` body of
`scrape_channel_history`: a processed post (possibly `none` for non-audio
messages), a `FloodWaitError` carrying its wait seconds, or an isolated
failure. -/
inductive ProcessOutcome where
  | post (p : Option String)
  | floodWait (seconds : Nat)
  | failed
deriving DecidableEq, Repr

/-- The scan parameters the loop consults (`BATCH_SIZE`,
`DELAY_BETWEEN_BATCHES`; the source's delay is a float, carried here as
whole seconds). -/
structure ScrapeConfig where
  batch_size : Nat
  delay_between_batches : Nat
deriving DecidableEq, Repr

/-- The mutable state of the `scrape_channel_history` message loop.
`checkpoints` records each `save_checkpoint(last_message_id,
processed_count, ...)` call in order; `sleeps` records each
`asyncio.sleep` duration in order. -/
structure ScrapeState where
  batch_posts : List String
  all_posts : List String
  processed_count : Nat
  last_message_id : Option Nat
  checkpoints : List (Nat × Nat)
  sleeps : List Nat
  batch_count : Nat
deriving DecidableEq, Repr

/-- One iteration of the `async for message` loop of
`scrape_channel_history` (lines 231-267): on `FloodWaitError` the handler
sleeps exactly `e.seconds` and `continue`s — the current message is
skipped and no checkpoint is written; on success the post is accumulated
and a full batch triggers a save, a checkpoint and the inter-batch
delay. -/
def scrape_step (cfg : ScrapeConfig) (st : ScrapeState)
    (m : Nat × ProcessOutcome) : ScrapeState :=
  match m.2 with
  | .floodWait w => { st with sleeps := st.sleeps ++ [w] }
  | .failed => st
  | .post none => st
  | .post (some p) =>
    let st1 := { st with
      batch_posts := st.batch_posts ++ [p]
      all_posts := st.all_posts ++ [p]
      processed_count := st.processed_count + 1
      last_message_id := some m.1 }
    if cfg.batch_size ≤ st1.batch_posts.length then
      { st1 with
        checkpoints := st1.checkpoints ++ [(st1.last_message_id.getD 0, st1.processed_count)]
        batch_posts := []
        batch_count := st1.batch_count + 1
        sleeps := st1.sleeps ++
          (if 0 < cfg.delay_between_batches then [cfg.delay_between_batches] else []) }
    else st1

/-- The message loop of `scrape_channel_history`, folded over the stream
of per-message outcomes; `start_count` is the `processed_count` restored
from the checkpoint. -/
def scrape_run (cfg : ScrapeConfig) (start_count : Nat)
    (msgs : List (Nat × ProcessOutcome)) : ScrapeState :=
  msgs.foldl (scrape_step cfg)
    { batch_posts := []
      all_posts := []
      processed_count := start_count
      last_message_id := none
      checkpoints := []
      sleeps := []
      batch_count := 0 }

/-- Outcome of one message inside the `async for` body of
`TelegramMusicArchiver.process_channel_history`: an extracted track
(`none` when the message is not audio or extraction returned `None`), a
`FloodWaitError`, or an isolated failure. -/
inductive AutoOutcome where
  | track (t : Option MusicTrack)
  | floodWait (seconds : Nat)
  | failed
deriving DecidableEq, Repr

/-- The mutable state of the `process_channel_history` message loop. -/
structure AutoState where
  batch : List MusicTrack
  processed_count : Nat
  sleeps : List Nat
  batches_processed : List (List MusicTrack)
deriving DecidableEq, Repr

/-- One iteration of the message loop of `process_channel_history`
(lines 443-469): on `FloodWaitError` the handler sleeps
`e.seconds + 5` and the loop moves on to the next message; on the normal
path the track (if any) joins the batch, a full batch is dispatched to
`process_batch`, and `processed_count` is incremented. -/
def auto_step (batch_size : Nat) (st : AutoState) (o : AutoOutcome) : AutoState :=
  match o with
  | .floodWait w => { st with sleeps := st.sleeps ++ [w + 5] }
  | .failed => st
  | .track t =>
    let st1 := match t with
      | some tr => { st with batch := st.batch ++ [tr] }
      | none => st
    let st2 :=
      if batch_size ≤ st1.batch.length then
        { st1 with batches_processed := st1.batches_processed ++ [st1.batch], batch := [] }
      else st1
    { st2 with processed_count := st2.processed_count + 1 }

/-! ## Concrete fixtures used by witnesses and counterexamples -/

/-- A concrete track as produced by the extraction step for a plain audio
post. -/
def sample_track : MusicTrack :=
  { file_id := "555"
    title := "Come Together"
    artist := "The Beatles"
    album := "Abbey Road"
    year := "1969"
    side := "Side A"
    duration := 259
    file_size := 4200000
    file_path := "downloads/raw/555.mp3"
    download_url := ""
    message_id := 10
    channel_id := "777"
    upload_date := "2020-01-01T00:00:00"
    forwarded_date := none
    gdrive_url := none
    onedrive_url := none
    airtable_id := none
    sheets_row := none
    processing_status := "downloaded" }

/-- A track whose `year` field carries a reserved filesystem character
(the year can come from an arbitrary embedded `TDRC` tag via
`organize_track`). -/
def bad_year_track : MusicTrack :=
  { sample_track with
    artist := "A"
    album := "B"
    year := "19<69"
    title := "T"
    file_path := "x.mp3" }

/-- A checkpoint saved under an earlier configuration (its `config_hash`
is the fingerprint of that old configuration). -/
def stale_checkpoint : ScrapeCheckpoint :=
  { last_message_id := 42
    processed_count := 7
    channel_username := "chan"
    timestamp := "2024-01-01T00:00:00"
    config_hash := "aaaa1111" }

/-- Boolean test that a string contains no reserved or control character. -/
def no_invalid_chars (s : String) : Bool :=
  s.data.all (fun c => !(is_invalid_fs_char c))

/-! ## Helper lemmas -/

/-- Characters surviving `dropWhile` were in the original list. -/
theorem mem_of_mem_dropWhile {α : Type} (p : α → Bool) :
    ∀ (l : List α) (c : α), c ∈ l.dropWhile p → c ∈ l := by
  intro l
  induction l with
  | nil => intro c h; simp at h
  | cons a as ih =>
    intro c h
    rw [List.dropWhile_cons] at h
    by_cases hp : p a = true
    · rw [if_pos hp] at h
      exact List.mem_cons_of_mem a (ih c h)
    · rw [if_neg hp] at h
      exact h

/-- Characters surviving `strip_chars` were in the original list. -/
theorem mem_strip_chars (l : List Char) (c : Char) (h : c ∈ strip_chars l) : c ∈ l := by
  unfold strip_chars at h
  rw [List.mem_reverse] at h
  have h2 := mem_of_mem_dropWhile _ _ _ h
  rw [List.mem_reverse] at h2
  exact mem_of_mem_dropWhile _ _ _ h2

/-- Every character of a sanitized name is clean. -/
theorem sanitize_all_valid (s : String) : no_invalid_chars (sanitize_name s) = true := by
  rw [no_invalid_chars, List.all_eq_true]
  intro c hc
  have h1 : c ∈ s.data.filter (fun c => !(is_invalid_fs_char c)) := mem_strip_chars _ c hc
  exact (List.mem_filter.mp h1).2

/-- String concatenation acts as list concatenation on the data. -/
theorem str_data_append (a b : String) : (a ++ b).data = a.data ++ b.data := rfl

/-- Cleanliness is preserved by concatenation. -/
theorem no_invalid_chars_append (a b : String) (ha : no_invalid_chars a = true)
    (hb : no_invalid_chars b = true) : no_invalid_chars (a ++ b) = true := by
  rw [no_invalid_chars, str_data_append, List.all_append]
  rw [no_invalid_chars] at ha hb
  rw [ha, hb]
  rfl

/-- `findSome?` returns the image of the first element on which the
function succeeds. -/
theorem findSome_eq_of_first {α β : Type} (f : α → Option β) :
    ∀ (pre : List α) (l : α) (post : List α) (c : β),
      (∀ x ∈ pre, f x = none) → f l = some c → (pre ++ l :: post).findSome? f = some c := by
  intro pre
  induction pre with
  | nil =>
    intro l post c _ h2
    simp [List.findSome?_cons, h2]
  | cons a as ih =>
    intro l post c h1 h2
    have ha : f a = none := h1 a (List.mem_cons_self a as)
    rw [List.cons_append, List.findSome?_cons, ha]
    exact ih l post c (fun x hx => h1 x (List.mem_cons_of_mem a hx)) h2

/-- Python `or` of strings is non-empty when its right operand is. -/
theorem py_or_ne_empty (a b : String) (hb : b ≠ "") : py_or a b ≠ "" := by
  unfold py_or
  by_cases h : a = ""
  · rw [if_pos h]; exact hb
  · rw [if_neg h]; exact h

/-- Appending to a non-empty string keeps it non-empty. -/
theorem append_ne_empty (s t : String) (h : s.data ≠ []) : s ++ t ≠ "" := by
  intro he
  have hd : s.data ++ t.data = ([] : List Char) := congrArg String.data he
  exact h (List.append_eq_nil.mp hd).1

/-- `save_track_to_db` leaves exactly one record under the written key. -/
theorem filter_save_key (db : List MusicTrack) (t : MusicTrack) :
    (save_track_to_db db t).filter (fun r => r.file_id = t.file_id) = [t] := by
  unfold save_track_to_db
  rw [List.filter_cons_of_pos (by simp), List.filter_filter]
  have hnil : List.filter
      (fun a => decide (a.file_id = t.file_id) && decide (a.file_id ≠ t.file_id)) db = [] := by
    rw [List.filter_eq_nil_iff]
    intro a _
    simp
  rw [hnil]

/-! ## Claim theorems -/

/-- C1 (amended): running the pipeline's tracker write twice for the same
`file_id` leaves the local SQLite tracker with exactly one record for
that id, whose fields equal the second run's output — `save_track_to_db`
is an `INSERT OR REPLACE` keyed by the `file_id` primary key.  (The
downstream Airtable sink is NOT an upsert; see the counterexample.) -/
theorem db_upsert_single_record (db : List MusicTrack) (t1 t2 : MusicTrack)
    (h : t1.file_id = t2.file_id) :
    (save_track_to_db (save_track_to_db db t1) t2).filter
      (fun r => r.file_id = t1.file_id) = [t2] := by
  rw [h]
  exact filter_save_key _ t2

/-- Witness for C1: the double save of a concrete track leaves exactly
that one record. -/
theorem db_upsert_single_record_applied :
    (save_track_to_db (save_track_to_db [] sample_track) sample_track).filter
      (fun r => r.file_id = sample_track.file_id) = [sample_track] :=
  db_upsert_single_record [] sample_track sample_track rfl

/-- Counterexample for C1 as stated: the Airtable sink
(`sync_to_airtable`) uses the collaborator's `create` call, which appends
a fresh record; syncing the same track twice leaves two records carrying
the same `File ID` — a duplicate-creating insert, not an upsert keyed by
`item_id`. -/
theorem airtable_create_duplicates :
    ((sync_to_airtable (sync_to_airtable [] sample_track) sample_track).filter
      (fun r => r.file_id = sample_track.file_id)).length = 2 := by decide

/-- C2 (amended): in `extract_track_info` a non-empty parsed message-text
title/artist takes priority over the embedded audio-attribute value; but
in the `organize_track` step any non-empty embedded file-tag value
overwrites the corresponding track field — including a previously parsed
title — and the parsed value survives only when the tag is empty. -/
theorem merge_precedence_amended :
    (∀ (p : ParsedMeta) (attr_t attr_p : String) (d fs : Nat) (fid : String) (mid : Nat)
       (cid ud : String), p.title ≠ "" →
       (extract_track_info p attr_t attr_p d fs fid mid cid ud).title = p.title) ∧
    (∀ (p : ParsedMeta) (attr_t attr_p : String) (d fs : Nat) (fid : String) (mid : Nat)
       (cid ud : String), p.artist ≠ "" →
       (extract_track_info p attr_t attr_p d fs fid mid cid ud).artist = p.artist) ∧
    (∀ (t : MusicTrack) (m : AudioMeta), m.title ≠ "" →
       (organize_track_merge t m).title = m.title) ∧
    (∀ (t : MusicTrack) (m : AudioMeta), m.title = "" →
       (organize_track_merge t m).title = t.title) := by
  refine ⟨?_, ?_, ?_, ?_⟩
  · intro p attr_t attr_p d fs fid mid cid ud h
    show py_or p.title (py_or attr_t ("Track_" ++ fid)) = p.title
    rw [py_or, if_neg h]
  · intro p attr_t attr_p d fs fid mid cid ud h
    show py_or p.artist (py_or attr_p "Unknown Artist") = p.artist
    rw [py_or, if_neg h]
  · intro t m h
    show (if m.title ≠ "" then m.title else t.title) = m.title
    rw [if_pos h]
  · intro t m h
    show (if m.title ≠ "" then m.title else t.title) = t.title
    rw [if_neg (by simp [h])]

/-- Witness for C2 (amended): at a concrete input the parsed title wins
during extraction and the embedded tag wins during organization. -/
theorem merge_precedence_applied :
    (extract_track_info ⟨"Parsed Title", "Parsed Artist", "", ""⟩ "Attr Title" "Attr Artist"
      100 1000 "f1" 1 "c" "d").title = "Parsed Title" ∧
    (organize_track_merge sample_track ⟨"Tag Title", "", "", "", 0⟩).title = "Tag Title" :=
  ⟨merge_precedence_amended.1 ⟨"Parsed Title", "Parsed Artist", "", ""⟩ "Attr Title"
      "Attr Artist" 100 1000 "f1" 1 "c" "d" (by decide),
   merge_precedence_amended.2.2.1 sample_track ⟨"Tag Title", "", "", "", 0⟩ (by decide)⟩

/-- Counterexample for C2 as stated: a track whose title came from parsed
message text ("Parsed Title", non-empty) reaches the organize step, where
the embedded tag value "Tag Title" overwrites it — the claimed precedence
does not hold through the whole pipeline. -/
theorem organize_overwrites_parsed_title :
    (extract_track_info ⟨"Parsed Title", "Parsed Artist", "", ""⟩ "Attr Title" "Attr Artist"
      100 1000 "f1" 1 "c" "d").title = "Parsed Title" ∧
    (organize_track_merge
      (extract_track_info ⟨"Parsed Title", "Parsed Artist", "", ""⟩ "Attr Title" "Attr Artist"
        100 1000 "f1" 1 "c" "d")
      { title := "Tag Title", artist := "Tag Artist", album := "", year := "", duration := 0 }).title
      = "Tag Title" ∧
    ("Tag Title" : String) ≠ "Parsed Title" := by
  refine ⟨by decide, by decide, by decide⟩

/-- C3 (amended): on a rate-limit signal carrying wait `w`, the history
scraper's loop sleeps exactly `w` seconds (no safety margin) and the
automation driver's loop sleeps `w + 5`; neither writes a checkpoint nor
touches the batch during the wait — but both then continue with the NEXT
message: the rate-limited message is skipped, not retried. -/
theorem flood_wait_step_amended :
    (∀ (cfg : ScrapeConfig) (st : ScrapeState) (mid w : Nat),
       scrape_step cfg st (mid, .floodWait w) = { st with sleeps := st.sleeps ++ [w] }) ∧
    (∀ (bs : Nat) (st : AutoState) (w : Nat),
       auto_step bs st (.floodWait w) = { st with sleeps := st.sleeps ++ [w + 5] }) :=
  ⟨fun _ _ _ _ => rfl, fun _ _ _ => rfl⟩

/-- Counterexample for C3 as stated: in a concrete run where message 1
signals a 30-second rate limit and message 2 is a normal post, the loop
sleeps exactly 30 seconds (not 30 plus a margin) and finishes with only
message 2's post — message 1 was consumed (skipped) rather than resumed. -/
theorem flood_wait_message_skipped :
    scrape_run { batch_size := 100, delay_between_batches := 2 } 0
        [(1, .floodWait 30), (2, .post (some "p2"))]
      = { batch_posts := ["p2"], all_posts := ["p2"], processed_count := 1,
          last_message_id := some 2, checkpoints := [], sleeps := [30],
          batch_count := 0 } := by decide

/-- C4 (amended): the sanitizer removes every reserved and control
character and the Unknown-Artist/Unknown-Album fallbacks apply, so all
path segments are clean PROVIDED the year, the side string and the
original file extension are clean — those three are interpolated without
sanitization (see the counterexample for the year). -/
theorem sanitize_segments_amended :
    (∀ s : String, no_invalid_chars (sanitize_name s) = true) ∧
    (∀ (b : Bool) (t : MusicTrack),
       no_invalid_chars t.year = true → no_invalid_chars t.side = true →
       no_invalid_chars (path_suffix t.file_path) = true →
       ∀ seg ∈ organize_file_path b t, no_invalid_chars seg = true) ∧
    (∀ (b : Bool) (t : MusicTrack), sanitize_name t.artist = "" → sanitize_name t.album = "" →
       t.year = "" → (organize_file_path b t).headI = "Unknown Artist - Unknown Album") := by
  refine ⟨sanitize_all_valid, ?_, ?_⟩
  · intro b t hy hs he seg hseg
    have hart : no_invalid_chars (fallback_artist t.artist) = true := by
      rw [fallback_artist]
      by_cases h : sanitize_name t.artist = ""
      · rw [if_pos h]; decide
      · rw [if_neg h]; exact sanitize_all_valid _
    have halb : no_invalid_chars (fallback_album t.album) = true := by
      rw [fallback_album]
      by_cases h : sanitize_name t.album = ""
      · rw [if_pos h]; decide
      · rw [if_neg h]; exact sanitize_all_valid _
    have hfolder : no_invalid_chars (album_folder_name t) = true := by
      rw [album_folder_name]
      by_cases h : t.year = ""
      · rw [if_pos h]
        exact no_invalid_chars_append _ _ (no_invalid_chars_append _ _ hart (by decide)) halb
      · rw [if_neg h]
        refine no_invalid_chars_append _ _ ?_ (by decide)
        refine no_invalid_chars_append _ _ ?_ hy
        refine no_invalid_chars_append _ _ ?_ (by decide)
        exact no_invalid_chars_append _ _ (no_invalid_chars_append _ _ hart (by decide)) halb
    have hfile : no_invalid_chars (sanitize_name t.title ++ path_suffix t.file_path) = true :=
      no_invalid_chars_append _ _ (sanitize_all_valid _) he
    have hmem : seg = album_folder_name t ∨ seg = t.side ∨
        seg = sanitize_name t.title ++ path_suffix t.file_path := by
      cases b with
      | true =>
        have h2 : seg = album_folder_name t ∨ seg = t.side ∨
            seg = sanitize_name t.title ++ path_suffix t.file_path := by
          simpa [organize_file_path] using hseg
        exact h2
      | false =>
        have h2 : seg = album_folder_name t ∨
            seg = sanitize_name t.title ++ path_suffix t.file_path := by
          simpa [organize_file_path] using hseg
        rcases h2 with h3 | h3
        · exact Or.inl h3
        · exact Or.inr (Or.inr h3)
    rcases hmem with h1 | h1 | h1
    · rw [h1]; exact hfolder
    · rw [h1]; exact hs
    · rw [h1]; exact hfile
  · intro b t h1 h2 h3
    cases b with
    | true =>
      show (album_folder_name t) = "Unknown Artist - Unknown Album"
      rw [album_folder_name, if_pos h3, fallback_artist, if_pos h1, fallback_album, if_pos h2]
      decide
    | false =>
      show (album_folder_name t) = "Unknown Artist - Unknown Album"
      rw [album_folder_name, if_pos h3, fallback_artist, if_pos h1, fallback_album, if_pos h2]
      decide

/-- Witness for C4 (amended): concrete clean track and concrete fallback
case. -/
theorem sanitize_segments_applied :
    no_invalid_chars "The Beatles - Abbey Road (1969)" = true ∧
    (organize_file_path true { sample_track with artist := "???", album := "***", year := "" }).headI
      = "Unknown Artist - Unknown Album" :=
  ⟨sanitize_segments_amended.2.1 true sample_track (by decide) (by decide) (by decide)
      "The Beatles - Abbey Road (1969)" (by decide),
   sanitize_segments_amended.2.2 true
      { sample_track with artist := "???", album := "***", year := "" }
      (by decide) (by decide) rfl⟩

/-- Counterexample for C4 as stated: a track whose `year` metadata string
is `"19<69"` produces the album-folder segment `"A - B (19<69)"`, which
contains the reserved character `<` — the year is interpolated into the
path unsanitized. -/
theorem year_segment_unsanitized :
    (organize_file_path true bad_year_track).headI = "A - B (19<69)" ∧
    "A - B (19<69)".data.contains '<' = true ∧ '<' ∈ reserved_fs_chars := by
  refine ⟨by decide, by decide, by decide⟩

/-- C5 (confirmed): `organize_file_path` names the album folder
`"{artist} - {album}"`, or `"{artist} - {album} ({year})"` when a year is
present, and appends the side segment exactly when side folders are
enabled — it coincides with the spec-side `organize_path_spec` on every
track — and the Beatles scenario yields the claimed relative path. -/
theorem organize_path_matches_spec :
    (∀ (b : Bool) (t : MusicTrack), organize_file_path b t = organize_path_spec b t) ∧
    String.intercalate "/" (organize_file_path true sample_track)
      = "The Beatles - Abbey Road (1969)/Side A/Come Together.mp3" := by
  refine ⟨?_, by decide⟩
  intro b t
  cases b <;> rfl

/-- C6 (confirmed): the parser returns the split of the first line that
contains `" - "`, does not start with `"http"` or the track-marker token
`"Track"`, and has non-empty artist and album after trimming; lines
before it that fail the test are passed over, and the split is on the
FIRST `" - "` occurrence, so "Artist - Title - Remix" yields
artist "Artist" and album "Title - Remix". -/
theorem parse_first_match_wins :
    (∀ (text : String) (pre : List String) (l : String) (post : List String)
       (c : String × String),
       clean_lines text = pre ++ l :: post →
       (∀ x ∈ pre, line_candidate x = none) →
       line_candidate l = some c →
       parse_artist_album text = some c) ∧
    line_candidate "Artist - Title - Remix" = some ("Artist", "Title - Remix") := by
  refine ⟨?_, by decide⟩
  intro text pre l post c hlines h1 h2
  rw [parse_artist_album, hlines]
  exact findSome_eq_of_first line_candidate pre l post c h1 h2

/-- Witness for C6: a text whose first line starts with the track marker
is passed over and the second line is split on its first `" - "`. -/
theorem parse_first_match_applied :
    parse_artist_album "Track 1 - foo\nArtist - Title - Remix"
      = some ("Artist", "Title - Remix") :=
  parse_first_match_wins.1 "Track 1 - foo\nArtist - Title - Remix" ["Track 1 - foo"]
    "Artist - Title - Remix" [] ("Artist", "Title - Remix") (by decide) (by decide) (by decide)

/-- C7 (amended): parsing the scenario text returns artist "The Beatles",
album_name "Abbey Road (1969)" — the year is NOT stripped from the album
half of the line — year "1969" and the two track lines in encounter
order. -/
theorem parse_scenario_amended :
    parse_album_info_advanced "The Beatles - Abbey Road (1969)\n1. Come Together\n2. Something"
      = { artist := "The Beatles", album_name := "Abbey Road (1969)", year := "1969",
          track_list := ["1. Come Together", "2. Something"] } := by decide

/-- Counterexample for C7 as stated: the claim expects album "Abbey
Road", but the parser keeps the whole right half of the split line,
"Abbey Road (1969)". -/
theorem parse_scenario_album_retains_year :
    (parse_album_info_advanced
        "The Beatles - Abbey Road (1969)\n1. Come Together\n2. Something").album_name
      ≠ "Abbey Road" := by decide

/-- C8 (code bug): both date filters are written to the same
`offset_date` key of the iterator parameters, so when a start and an end
boundary are both configured the end date overwrites the start date — the
constructed parameters are identical to those with no start bound at all,
and items before the start date are not skipped. -/
theorem date_filter_overwritten :
    build_iter_params 10000 0 (some "2020-01-01") (some "2021-06-30")
      = { limit := 10000, reverse := false, min_id := 0,
          offset_date := some "2021-06-30" } ∧
    (∀ (m i : Nat) (s e : String),
       build_iter_params m i (some s) (some e) = build_iter_params m i none (some e)) := by
  refine ⟨by decide, ?_⟩
  intro m i s e
  rfl

/-- C9 (amended): every saved checkpoint carries the configuration
fingerprint (`config_hash`), but `load_checkpoint` returns the stored
checkpoint without inspecting that fingerprint — an incompatible
checkpoint is still used for resumption — and a malformed or missing
checkpoint file simply yields an empty checkpoint (scan restarts from
message id 0) rather than a fatal condition. -/
theorem checkpoint_load_amended :
    (∀ (l p : Nat) (cu ts h : String), (save_checkpoint l p cu ts h).config_hash = h) ∧
    (∀ cp : ScrapeCheckpoint, load_checkpoint true (some cp) = some cp) ∧
    (∀ cp : ScrapeCheckpoint,
       checkpoint_start_id (load_checkpoint true (some cp)) = cp.last_message_id) ∧
    load_checkpoint true none = none ∧
    checkpoint_start_id (load_checkpoint true none) = 0 :=
  ⟨fun _ _ _ _ _ => rfl, fun _ => rfl, fun _ => rfl, rfl, rfl⟩

/-- Counterexample for C9 as stated: a checkpoint fingerprinted under an
old configuration (`config_hash = "aaaa1111"`, different from the current
fingerprint "bbbb2222") is returned unchanged by `load_checkpoint` and
its `last_message_id` 42 becomes the resumption point — it is neither
invalidated nor treated as fatal. -/
theorem stale_checkpoint_resumed :
    stale_checkpoint.config_hash ≠ "bbbb2222" ∧
    load_checkpoint true (some stale_checkpoint) = some stale_checkpoint ∧
    checkpoint_start_id (load_checkpoint true (some stale_checkpoint)) = 42 := by
  refine ⟨by decide, by decide, by decide⟩

/-- C10 (confirmed): every track built by `extract_track_info` has
non-empty title, artist and album; when parsed text and audio attributes
are all empty the fields take the fallbacks `"Track_<file_id>"`,
`"Unknown Artist"` and `"Unknown Album"` — establishing the Path
Organizer's non-empty-title precondition at its only caller. -/
theorem extract_fields_nonempty :
    ∀ (p : ParsedMeta) (attr_t attr_p : String) (d fs : Nat) (fid : String) (mid : Nat)
      (cid ud : String),
      (extract_track_info p attr_t attr_p d fs fid mid cid ud).title ≠ "" ∧
      (extract_track_info p attr_t attr_p d fs fid mid cid ud).artist ≠ "" ∧
      (extract_track_info p attr_t attr_p d fs fid mid cid ud).album ≠ "" ∧
      (extract_track_info ⟨"", "", "", ""⟩ "" "" d fs fid mid cid ud).title = "Track_" ++ fid ∧
      (extract_track_info ⟨"", "", "", ""⟩ "" "" d fs fid mid cid ud).artist = "Unknown Artist" ∧
      (extract_track_info ⟨"", "", "", ""⟩ "" "" d fs fid mid cid ud).album = "Unknown Album" := by
  intro p attr_t attr_p d fs fid mid cid ud
  refine ⟨?_, ?_, ?_, rfl, rfl, rfl⟩
  · exact py_or_ne_empty _ _ (py_or_ne_empty _ _ (append_ne_empty _ _ (by decide)))
  · exact py_or_ne_empty _ _ (py_or_ne_empty _ _ (by decide))
  · exact py_or_ne_empty _ _ (by decide)

/-- Witness for C10: the all-empty input takes the `Track_<file_id>`
fallback. -/
theorem extract_fields_nonempty_applied :
    (extract_track_info ⟨"", "", "", ""⟩ "" "" 0 0 "f9" 0 "" "").title = "Track_" ++ "f9" :=
  (extract_fields_nonempty ⟨"", "", "", ""⟩ "" "" 0 0 "f9" 0 "" "").2.2.2.1
